import Mathlib

/-!
Verification development for the hOCR-to-PDF converter (`HocrConverter.py`).

The Python source is shallowly embedded: pure helpers become Lean functions,
the fallible parts (`ZeroDivisionError`, `AttributeError` on `None.has_key`,
`NameError` on the misspelled `heigth_ocr`, `IOError` on `Image.open`) are
modelled with `Except PyErr`.  Machine floats are modelled with `ℚ` (all the
arithmetic the claims exercise is exact on the rationals the code produces),
strings with `List Char`, and the two compiled regular expressions
`bbox((\s+\d+){4})` and `file\s+(.*)` with explicit leftmost-search scanners
that reproduce Python `re.search` semantics on those two patterns.
-/

namespace HocrConverter

/-- Strings are modelled as lists of characters. -/
abbrev Chars := List Char

/-- Python `\s` (ASCII semantics of the byte-string patterns compiled in
`__init__`): space, tab, newline, carriage return, vertical tab, form feed. -/
def pyIsSpace (c : Char) : Bool :=
  c == ' ' || c == '\t' || c == '\n' || c == '\r' || c == '\x0B' || c == '\x0C'

/-- Value of a run of decimal digits, as computed by Python `int(...)` on the
tokens produced by `matches.group(1).split()`. -/
def natOfDigits (ds : Chars) : ℕ :=
  ds.foldl (fun a c => 10 * a + (c.toNat - 48)) 0

/-- Match one `\s+\d+` group (greedy, which is what the Python engine commits
to here since each `\d+` is followed by `\s` or the end of the pattern):
requires at least one whitespace character, then at least one digit; returns
the digit run and the remaining input. -/
def matchSpDigits (l : Chars) : Option (Chars × Chars) :=
  match l with
  | [] => none
  | c :: _ =>
    if pyIsSpace c then
      let r := l.dropWhile pyIsSpace
      let ds := r.takeWhile Char.isDigit
      if ds = [] then none else some (ds, r.dropWhile Char.isDigit)
    else none

/-- Match `(\s+\d+){4}` and return the four integers, i.e. the result of
`int` applied to each whitespace-separated token of capture group 1. -/
def matchBbox4 (l : Chars) : Option (ℤ × ℤ × ℤ × ℤ) := do
  let (d1, r1) ← matchSpDigits l
  let (d2, r2) ← matchSpDigits r1
  let (d3, r3) ← matchSpDigits r2
  let (d4, _) ← matchSpDigits r3
  pure ((natOfDigits d1 : ℤ), (natOfDigits d2 : ℤ),
        (natOfDigits d3 : ℤ), (natOfDigits d4 : ℤ))

def bboxHead : Chars := ['b', 'b', 'o', 'x']

def fileHead : Chars := ['f', 'i', 'l', 'e']

/-- `self.boxPattern.search(title)`: leftmost occurrence of
`bbox(\s+\d+){4}`, returning the four parsed integers. -/
def boxSearch : Chars → Option (ℤ × ℤ × ℤ × ℤ)
  | [] => none
  | c :: rest =>
    match (if (c :: rest).take 4 = bboxHead
           then matchBbox4 ((c :: rest).drop 4) else none) with
    | some r => some r
    | none => boxSearch rest

/-- Try `file\s+(.*)` anchored at the head of `l`.  The greedy `\s+` consumes
the maximal whitespace run and `(.*)` (no DOTALL) captures up to the next
newline or the end of the string. -/
def fileMatchAt (l : Chars) : Option Chars :=
  if l.take 4 = fileHead then
    match l.drop 4 with
    | c :: _ =>
      if pyIsSpace c then
        some (((l.drop 4).dropWhile pyIsSpace).takeWhile (fun d => d ≠ '\n'))
      else none
    | [] => none
  else none

/-- `self.filenamePattern.search(title)`: leftmost occurrence of
`file\s+(.*)`, returning capture group 1. -/
def fileSearch : Chars → Option Chars
  | [] => none
  | c :: rest =>
    match fileMatchAt (c :: rest) with
    | some r => some r
    | none => fileSearch rest

/-- Result dictionary of `parse_element_title`: either `{"bbox": ...}` or
`{"file": ...}`. -/
inductive ParseResult where
  | bbox : ℤ × ℤ × ℤ × ℤ → ParseResult
  | file : Chars → ParseResult
deriving DecidableEq

/-- `parse_element_title` (lines 95-108): if the element has a `title`
attribute, try the bbox pattern first, then the file pattern; otherwise
(or when neither matches) return `None`. -/
def parse_element_title (title : Option Chars) : Option ParseResult :=
  match title with
  | none => none
  | some t =>
    match boxSearch t with
    | some b => some (.bbox b)
    | none => (fileSearch t).map .file

/-- Runtime errors of the embedded Python fragments. -/
inductive PyErr where
  | attributeError
  | zeroDivision
  | ioError
  | nameError
  | outOfFuel
deriving DecidableEq

/-- `element_coordinates` (lines 110-120).  The source calls
`parse_result.has_key("bbox")` without checking for `None`, so a missing
title or a title matching neither pattern raises `AttributeError`
(`'NoneType' object has no attribute 'has_key'`); a title matching only the
file pattern leaves the initial `(0,0,0,0)` default in place. -/
def element_coordinates (title : Option Chars) : Except PyErr (ℤ × ℤ × ℤ × ℤ) :=
  match parse_element_title title with
  | none => .error .attributeError
  | some (.bbox b) => .ok b
  | some (.file _) => .ok (0, 0, 0, 0)

/-- An `ElementTree` element as far as `__str__` needs it: its own `text`,
its ordered children, and its `tail`. -/
inductive XElem where
  | node : Option Chars → List XElem → Option Chars → XElem

/-- Direct children of an element (`len(element)` counts these, which is what
Python truthiness of an element tests). -/
def XElem.children : XElem → List XElem
  | .node _ cs _ => cs

mutual
/-- `_get_element_text` (lines 82-93): the element's own text, then the
recursively flattened text of each child (each child contributes its own
tail), then the element's tail. -/
def get_element_text : XElem → Chars
  | .node t cs tl => t.getD [] ++ get_children_text cs ++ tl.getD []

/-- Concatenation of `_get_element_text` over a child list, in order. -/
def get_children_text : List XElem → Chars
  | [] => []
  | c :: cs => get_element_text c ++ get_children_text cs
end

/-- `__str__` (lines 70-80).  The outer option is `self.hocr` (is an hOCR
document loaded?); the inner option is the result of the `.//body` lookup.
The source guards with `if body:`, and Python truthiness of an
`ElementTree` element is `len(element) != 0` — a childless body is treated
as absent even when it carries direct text. -/
def hocr_str (hocr : Option (Option XElem)) : Chars :=
  match hocr with
  | none => []
  | some none => []
  | some (some body) =>
    match body.children with
    | [] => []
    | _ :: _ => get_element_text body

/-- `to_text` (lines 419-425) writes exactly `self.__str__()` to the output
file; we model the written string. -/
def to_text (hocr : Option (Option XElem)) : Chars :=
  hocr_str hocr

/-! ## The `to_pdf` page loop -/

/-- `reportlab.lib.units.inch`: 72 points per inch. -/
def inch : ℚ := 72

/-- An image as the image collaborator reports it: pixel size and optional
embedded DPI metadata (`im.size`, `im.info['dpi']`). -/
structure Img where
  w : ℕ
  h : ℕ
  dpi : Option (ℚ × ℚ)
deriving DecidableEq

/-- A text-bearing element (`span` or `p`) under a page: its `class`
attribute, optional `title` attribute, and direct text payload. -/
structure TNode where
  cls : Chars
  title : Option Chars
  text : Option Chars
deriving DecidableEq

/-- A `div` of the hOCR document: `class` and `title` attributes, the number
of direct children (Python truthiness of the element), and its `span` and
`p` descendants in document order (the results of the two `findall`s). -/
structure DivEl where
  cls : Chars
  title : Option Chars
  nchildren : ℕ
  spans : List TNode
  ps : List TNode
deriving DecidableEq

/-- Python float division: raises `ZeroDivisionError` on a zero divisor. -/
def pydiv (a b : ℚ) : Except PyErr ℚ :=
  if b = 0 then .error .zeroDivision else .ok (a / b)

/-- `Image.open(name)` against an abstract file system: a missing file
raises `IOError`. -/
def open_image (fs : List (Chars × Img)) (name : Chars) : Except PyErr Img :=
  match fs.lookup name with
  | some i => .ok i
  | none => .error .ioError

/-- `_setup_image` (lines 136-153): pixel dimensions divided by embedded DPI
when present, otherwise both physical dimensions are `None`. -/
def setup_image (im : Img) : Except PyErr (Img × Option (ℚ × ℚ)) :=
  match im.dpi with
  | some (dx, dy) => do
      let w ← pydiv (im.w : ℚ) dx
      let h ← pydiv (im.h : ℚ) dy
      pure (im, some (w, h))
  | none => pure (im, none)

def ocrLineCls : Chars := "ocr_line".data

/-- One coordinate update of `get_ocr_text_extension` (lines 169-178):
widen the running (min, max) pair by one coordinate. -/
def ext_upd (mnmx : ℤ × ℤ) (v : ℤ) : ℤ × ℤ :=
  (if v < mnmx.1 then v else mnmx.1, if v > mnmx.2 then v else mnmx.2)

/-- Loop body of `get_ocr_text_extension`: fold over the page's `span`
elements whose class is `ocr_line`, extracting each line's coordinates
(which can raise, exactly as `element_coordinates` can). -/
def ext_fold : List TNode → (ℤ × ℤ × ℤ × ℤ) → Except PyErr (ℤ × ℤ × ℤ × ℤ)
  | [], acc => .ok acc
  | line :: rest, acc =>
    if line.cls = ocrLineCls then do
      let tc ← element_coordinates line.title
      let x := ext_upd (ext_upd (acc.1, acc.2.2.1) tc.1) tc.2.2.1
      let y := ext_upd (ext_upd (acc.2.1, acc.2.2.2) tc.2.1) tc.2.2.2
      ext_fold rest (x.1, y.1, x.2, y.2)
    else ext_fold rest acc

/-- `get_ocr_text_extension` (lines 155-180) with the min/max accumulators
initialised to 0. -/
def get_ocr_text_extension (page : DivEl) : Except PyErr (ℤ × ℤ × ℤ × ℤ) :=
  ext_fold page.spans (0, 0, 0, 0)

/-- `to_pdf` configuration flags and font size, mirroring the keyword
arguments of `to_pdf`. -/
structure Cfg where
  withVisibleOCRText : Bool
  withVisibleImage : Bool
  withVisibleBoundingBoxes : Bool
  noPictureFromHocr : Bool
  multiplePages : Bool
  hocrImageReference : Bool
  verticalInversion : Bool
  fontsize : ℚ
deriving DecidableEq

/-- The default keyword arguments of `to_pdf`. -/
def cfg0 : Cfg :=
  ⟨false, true, false, false, false, false, false, 8⟩

/-- Python truthiness of an optional float (`None` and `0.0` are falsy). -/
def pyFalsy : Option ℚ → Bool
  | none => true
  | some q => decide (q = 0)

/-- Python truthiness of an optional element (line 235's `if not page:`):
`None` is falsy, and an element with no direct children is falsy too. -/
def pyTruthyDiv : Option DivEl → Bool
  | none => false
  | some d => decide (d.nchildren ≠ 0)

/-- Geometry resolution, lines 307-326 of `to_pdf`: when an hOCR page is
present, a missing physical size falls back to OCR-extent / 300, and the
effective DPI is (OCR extent / physical size) with Python's unguarded
division; when no page is present and the size is still missing, the code
falls back to raw pixel size / 96 (raising `AttributeError` if there is no
image either, since it dereferences `im.size`). -/
def resolve_dims (pageIsSome : Bool) (ocrwidth ocrheight : ℤ)
    (wh : Option (ℚ × ℚ)) (im : Option Img) :
    Except PyErr ((ℚ × ℚ) × Option (ℚ × ℚ)) :=
  if pageIsSome then do
    let w : ℚ := match wh with | none => (ocrwidth : ℚ) / 300 | some p => p.1
    let h : ℚ := match wh with | none => (ocrheight : ℚ) / 300 | some p => p.2
    let dx ← pydiv (ocrwidth : ℚ) w
    let dy ← pydiv (ocrheight : ℚ) h
    pure ((w, h), some (dx, dy))
  else
    match wh with
    | some p => pure (p, none)
    | none =>
      match im with
      | none => .error .attributeError
      | some i => pure (((i.w : ℚ) / 96, (i.h : ℚ) / 96), none)

/-- Vertical-axis inversion (lines 373-378): the new corner-1 y is the page
height in points minus the old corner-2 y, and vice versa. -/
def invert_y (hp : ℚ) (ys : ℚ × ℚ) : ℚ × ℚ :=
  (hp - ys.2, hp - ys.1)

/-- Corner computation for one text element (lines 364-378): divide each
bbox coordinate by the effective DPI, scale to points, then optionally
invert the y axis about the page height. -/
def text_corners (coords : ℤ × ℤ × ℤ × ℤ) (d : ℚ × ℚ) (hgt : ℚ)
    (vinv : Bool) : Except PyErr (ℚ × ℚ × ℚ × ℚ) := do
  let c1x := (← pydiv (coords.1 : ℚ) d.1) * inch
  let c1y := (← pydiv (coords.2.1 : ℚ) d.2) * inch
  let c2x := (← pydiv (coords.2.2.1 : ℚ) d.1) * inch
  let c2y := (← pydiv (coords.2.2.2 : ℚ) d.2) * inch
  if vinv then
    let p := invert_y (hgt * inch) (c1y, c2y)
    pure (c1x, p.1, c2x, p.2)
  else
    pure (c1x, c1y, c2x, c2y)

/-- `pdf.stringWidth(text, "Courier", fontsize)` of the drawing collaborator:
Courier is monospaced at 600/1000 em, so the natural width is
`len(text) * fontsize * 0.6`. -/
def stringWidth (content : Chars) (fontsize : ℚ) : ℚ :=
  (content.length : ℚ) * fontsize * 3 / 5

/-- Python `str.rstrip()`: drop trailing whitespace. -/
def pyRstrip (s : Chars) : Chars :=
  (s.reverse.dropWhile pyIsSpace).reverse

/-- The classes processed by the text loop (line 343). -/
def text_classes : List Chars :=
  ["ocr_line".data, "ocrx_word".data, "ocr_carea".data, "ocr_par".data]

/-- Bounding-box colors per class (lines 345-356); the final branch of the
chain (reached only for `ocr_par`) leaves `(255,0,0)`. -/
def bbox_color (cls : Chars) : ℕ × ℕ × ℕ :=
  if cls = "ocr_line".data then (0, 255, 0)
  else if cls = "ocrx_word".data then (0, 255, 255)
  else if cls = "ocr_carea".data then (255, 255, 0)
  else (255, 0, 0)

/-- One emitted text run: the post-inversion corners in points, the optional
horizontal scale percentage, the rstripped content, the render-mode flag,
the optional outline rectangle (corner-1 plus width/height), and the
class-dependent outline color. -/
structure TextOut where
  c1x : ℚ
  c1y : ℚ
  c2x : ℚ
  c2y : ℚ
  scale : Option ℚ
  content : Chars
  renderInvisible : Bool
  rect : Option (ℚ × ℚ × ℚ × ℚ)
  bboxColor : ℕ × ℕ × ℕ
deriving DecidableEq

/-- Lines 341-410 for a single text element. -/
def make_text_out (cfg : Cfg) (d : ℚ × ℚ) (hgt : ℚ) (line : TNode) :
    Except PyErr TextOut := do
  let coords ← element_coordinates line.title
  let c ← text_corners coords d hgt cfg.verticalInversion
  let content := pyRstrip (line.text.getD [])
  let scale ←
    if content = [] then pure (none : Option ℚ)
    else do
      let a ← pydiv (coords.2.2.1 : ℚ) d.1
      let b ← pydiv (coords.1 : ℚ) d.1
      let r ← pydiv (a * inch - b * inch) (stringWidth content cfg.fontsize)
      pure (some (r * 100))
  pure ⟨c.1, c.2.1, c.2.2.1, c.2.2.2, scale, content,
        !cfg.withVisibleOCRText,
        (if cfg.withVisibleBoundingBoxes then
          some (c.1, c.2.1, c.2.2.1 - c.1, c.2.2.2 - c.2.1) else none),
        bbox_color line.cls⟩

/-- The text loop (lines 341-410) over `page.findall span ++ page.findall p`,
keeping only the four recognized classes. -/
def texts_fold (cfg : Cfg) (d : ℚ × ℚ) (hgt : ℚ) :
    List TNode → Except PyErr (List TextOut)
  | [] => pure []
  | line :: rest =>
    if line.cls ∈ text_classes then do
      let t ← make_text_out cfg d hgt line
      let ts ← texts_fold cfg d hgt rest
      pure (t :: ts)
    else texts_fold cfg d hgt rest

/-- Everything `pdf.showPage()` finalizes for one loop iteration: whether the
iteration took the "Page with extension 0 … Skipping" branch, the resolved
geometry (physical size in length units plus effective DPI) when it did not,
the `setPageSize` argument in points, the inline image drawn (if any), and
the text runs drawn. -/
structure PageEvent where
  skipped : Bool
  geom : Option (ℚ × ℚ × Option (ℚ × ℚ))
  pageSize : Option (ℚ × ℚ)
  drawnImage : Option Img
  texts : List TextOut
deriving DecidableEq

/-- The page event of the skip branch (lines 303-304): nothing is drawn but
line 413 still runs `pdf.showPage()`. -/
def blankPage : PageEvent := ⟨true, none, none, none, []⟩

/-- One iteration of the `while True:` loop of `to_pdf` (lines 211-413) at a
given 1-based `page_count`.  `.ok none` models `break`; `.ok (some ev)`
models reaching `pdf.showPage()`. -/
def to_pdf_iter (hocr : Option (List DivEl)) (imageFileNames : List Img)
    (fs : List (Chars × Img)) (cfg : Cfg) (pages : List DivEl)
    (page_count : ℕ) : Except PyErr (Option PageEvent) :=
  let page : Option DivEl := pages.get? (page_count - 1)
  if 1 < page_count ∧ cfg.multiplePages = false then
    -- line 222: "there shouldn't be more than one, and if there is, we don't want it"
    .ok none
  else
    -- image selection, lines 224-238; line 236 breaks when the last image
    -- would be repeated but there is no further (truthy) hOCR page
    let imsel : Option (Option Img) :=
      match imageFileNames with
      | [] => some none
      | i0 :: irest =>
        if page_count ≤ (i0 :: irest).length then
          some ((i0 :: irest).get? (page_count - 1))
        else if pyTruthyDiv page then
          some (some ((i0 :: irest).getLast (List.cons_ne_nil i0 irest)))
        else none
    match imsel with
    | none => .ok none
    | some imageFileName => do
      -- page coordinates, lines 244-250
      let coords ← (match page with
        | some p => element_coordinates p.title
        | none => pure ((0, 0, 0, 0) : ℤ × ℤ × ℤ × ℤ))
      let ocrwidth0 : ℤ := coords.2.2.1 - coords.1
      let ocrheight0 : ℤ := coords.2.2.2 - coords.2.1
      -- command-line image, lines 252-257
      let (im, wh) ← (match imageFileName with
        | some i => do
            let s ← setup_image i
            pure (some s.1, s.2)
        | none => pure ((none : Option Img), (none : Option (ℚ × ℚ))))
      -- image from hOCR and text extent, lines 259-299
      let (im_ocr, ocrwidth, ocrheight) ←
        (match page with
         | none => pure ((none : Option Img), ocrwidth0, ocrheight0)
         | some p =>
           match parse_element_title p.title with
           | none => .error .attributeError  -- parse_result.has_key on None
           | some pr => do
             let im_ocr ← (match pr with
               | .file f =>
                 if (cfg.noPictureFromHocr = false ∧ imageFileName = none)
                     ∨ cfg.hocrImageReference = true then do
                   let i ← open_image fs f
                   let s ← setup_image i
                   pure (some s.1)
                 else pure (none : Option Img)
               | .bbox _ => pure (none : Option Img))
             let isFile : Bool := match pr with | .file _ => true | .bbox _ => false
             if isFile = true ∧ cfg.noPictureFromHocr = false ∧ imageFileName = none then
               -- line 282: `heigth = heigth_ocr` references an undefined name
               .error .nameError
             else do
               let ext ← get_ocr_text_extension p
               let ow := if ocrwidth0 = 0 then
                   (match im_ocr with | some i => (i.w : ℤ) | none => ext.2.2.1)
                 else ocrwidth0
               let oh := if ocrheight0 = 0 then
                   (match im_ocr with | some i => (i.h : ℤ) | none => ext.2.2.2)
                 else ocrheight0
               pure (im_ocr, ow, oh))
      -- skip check, line 303 (Python falsiness of ints and optional floats)
      let _ := im_ocr
      if (decide (ocrwidth = 0) && (pyFalsy (wh.map Prod.fst) || !cfg.withVisibleImage))
          || (decide (ocrheight = 0) && (pyFalsy (wh.map Prod.snd) || !cfg.withVisibleImage)) then
        pure (some blankPage)
      else do
        let r ← resolve_dims page.isSome ocrwidth ocrheight wh im
        let w := r.1.1
        let h := r.1.2
        let dpi := r.2
        let texts ← (match hocr with
          | none => pure ([] : List TextOut)
          | some _ =>
            match page with
            | none => .error .attributeError  -- line 339: page.findall on None
            | some p =>
              match dpi with
              | none => .error .nameError     -- ocr_dpi never assigned
              | some dv => texts_fold cfg dv h (p.spans ++ p.ps))
        pure (some ⟨false, some (w, h, dpi), some (w * inch, h * inch),
                    (if cfg.withVisibleImage then im else none), texts⟩)

/-- The `while True:` loop with explicit fuel (the source loop does not
terminate on some inputs, e.g. multi-page mode with no command-line images);
running out of fuel is reported as a distinguished error. -/
def to_pdf_loop (hocr : Option (List DivEl)) (imgs : List Img)
    (fs : List (Chars × Img)) (cfg : Cfg) (pages : List DivEl) :
    ℕ → ℕ → List PageEvent → Except PyErr (List PageEvent)
  | 0, _, _ => .error .outOfFuel
  | fuel + 1, pc, acc =>
    match to_pdf_iter hocr imgs fs cfg pages pc with
    | .error e => .error e
    | .ok none => .ok acc
    | .ok (some ev) => to_pdf_loop hocr imgs fs cfg pages fuel (pc + 1) (acc ++ [ev])

def ocrPageCls : Chars := "ocr_page".data

/-- `to_pdf` (lines 183-417): collect the `ocr_page` divs (lines 202-207) and
run the page loop from `page_count = 1`; the returned list is the sequence of
pages finalized by `pdf.showPage()` before `pdf.save()` (an uncaught Python
exception aborts the run, and no output at all is persisted). -/
def to_pdf (fuel : ℕ) (hocr : Option (List DivEl)) (imgs : List Img)
    (fs : List (Chars × Img)) (cfg : Cfg) : Except PyErr (List PageEvent) :=
  let pages := (hocr.getD []).filter (fun d => decide (d.cls = ocrPageCls))
  to_pdf_loop hocr imgs fs cfg pages fuel 1 []

/-! ## Concrete inputs used by the claim theorems -/

/-- The DPI-cascade example page of the spec: page bbox `(0,0,1500,2250)`. -/
def c1Page : DivEl := ⟨"ocr_page".data, some "bbox 0 0 1500 2250".data, 1, [], []⟩

/-- The DPI-cascade example image: 1500×2250 pixels at embedded 150×150 DPI. -/
def c1Img : Img := ⟨1500, 2250, some (150, 150)⟩

/-- A zero-extent page: bbox `(0,0,0,0)`, no text-bearing nodes. -/
def zpage : DivEl := ⟨"ocr_page".data, some "bbox 0 0 0 0".data, 0, [], []⟩

/-- An ordinary 100×100 page. -/
def rpage : DivEl := ⟨"ocr_page".data, some "bbox 0 0 100 100".data, 1, [], []⟩

/-- A 100×100-pixel image with embedded 100×100 DPI. -/
def img100 : Img := ⟨100, 100, some (100, 100)⟩

/-- A page whose title references an image file and carries no bbox. -/
def fpage : DivEl := ⟨"ocr_page".data, some "file im.png".data, 1, [], []⟩

/-- A file system containing the image referenced by `fpage`. -/
def fsC4 : List (Chars × Img) := [("im.png".data, ⟨100, 100, some (100, 100)⟩)]

/-- A page with zero page bbox and zero text extent but one `ocr_par` node:
its effective DPI resolves to `(0, 0)` once a visible image supplies the
physical size. -/
def c6page : DivEl :=
  ⟨"ocr_page".data, some "bbox 0 0 0 0".data, 1, [],
   [⟨"ocr_par".data, some "bbox 0 0 5 5".data, some "hi".data⟩]⟩

/-- Default flags with multi-page mode enabled. -/
def cfgM : Cfg := ⟨false, true, false, false, true, false, false, 8⟩

/-- Multi-page mode with the background image hidden. -/
def cfgMnoImg : Cfg := ⟨false, false, false, false, true, false, false, 8⟩

/-! ## Helper lemmas -/

def exceptDecEq {ε α : Type} [DecidableEq ε] [DecidableEq α] :
    DecidableEq (Except ε α) := fun a b =>
  match a, b with
  | .error e, .error f =>
    if h : e = f then .isTrue (by rw [h])
    else .isFalse (fun c => h (by cases c; rfl))
  | .error _, .ok _ => .isFalse (fun c => Except.noConfusion c)
  | .ok _, .error _ => .isFalse (fun c => Except.noConfusion c)
  | .ok x, .ok y =>
    if h : x = y then .isTrue (by rw [h])
    else .isFalse (fun c => h (by cases c; rfl))

instance {ε α : Type} [DecidableEq ε] [DecidableEq α] : DecidableEq (Except ε α) :=
  exceptDecEq

theorem except_bind_ok {α β : Type} (a : α) (f : α → Except PyErr β) :
    ((Except.ok a : Except PyErr α) >>= f) = f a := rfl

theorem option_bind_some {α β : Type} (a : α) (f : α → Option β) :
    ((some a : Option α) >>= f) = f a := rfl

theorem digit_not_space {c : Char} (h : c.isDigit = true) : pyIsSpace c = false := by
  by_contra hs
  rw [Bool.not_eq_false] at hs
  simp only [pyIsSpace, Bool.or_eq_true, beq_iff_eq] at hs
  rcases hs with ((((rfl | rfl) | rfl) | rfl) | rfl) | rfl <;>
    exact absurd h (by decide)

theorem space_not_digit {c : Char} (h : pyIsSpace c = true) : c.isDigit = false := by
  by_contra hd
  rw [Bool.not_eq_false] at hd
  rw [digit_not_space hd] at h
  exact Bool.false_ne_true h

theorem dropWhile_append_of_all {p : Char → Bool} {xs ys : Chars}
    (h : ∀ x ∈ xs, p x = true) :
    (xs ++ ys).dropWhile p = ys.dropWhile p := by
  induction xs with
  | nil => rfl
  | cons a l ih =>
    have ha : p a = true := h a (by simp)
    simp only [List.cons_append, List.dropWhile_cons, ha, if_true]
    exact ih (fun x hx => h x (by simp [hx]))

theorem dropWhile_of_head_not {p : Char → Bool} {ys : Chars}
    (h : ∀ c, ys.head? = some c → p c = false) :
    ys.dropWhile p = ys := by
  cases ys with
  | nil => rfl
  | cons a l => simp [List.dropWhile_cons, h a rfl]

theorem takeWhile_append_of_all {p : Char → Bool} {xs ys : Chars}
    (h : ∀ x ∈ xs, p x = true) :
    (xs ++ ys).takeWhile p = xs ++ ys.takeWhile p := by
  induction xs with
  | nil => rfl
  | cons a l ih =>
    have ha : p a = true := h a (by simp)
    simp only [List.cons_append, List.takeWhile_cons, ha, if_true]
    rw [ih (fun x hx => h x (by simp [hx]))]

theorem takeWhile_of_head_not {p : Char → Bool} {ys : Chars}
    (h : ∀ c, ys.head? = some c → p c = false) :
    ys.takeWhile p = [] := by
  cases ys with
  | nil => rfl
  | cons a l => simp [List.takeWhile_cons, h a rfl]

theorem takeWhile_of_all {p : Char → Bool} {l : Chars}
    (h : ∀ c ∈ l, p c = true) :
    l.takeWhile p = l := by
  induction l with
  | nil => rfl
  | cons a t ih =>
    simp only [List.takeWhile_cons, h a (by simp), if_true]
    rw [ih (fun c hc => h c (by simp [hc]))]

theorem head_not_digit_of_space {sp rest : Chars} (hsp : sp ≠ [])
    (hsps : ∀ c ∈ sp, pyIsSpace c = true) :
    ∀ c, (sp ++ rest).head? = some c → c.isDigit = false := by
  cases sp with
  | nil => exact absurd rfl hsp
  | cons a l =>
    intro c hc
    simp only [List.cons_append, List.head?_cons, Option.some.injEq] at hc
    subst hc
    exact space_not_digit (hsps a (by simp))

theorem matchSpDigits_spec {sp d rest : Chars}
    (hsp : sp ≠ []) (hsps : ∀ c ∈ sp, pyIsSpace c = true)
    (hd : d ≠ []) (hds : ∀ c ∈ d, c.isDigit = true)
    (hrest : ∀ c, rest.head? = some c → c.isDigit = false) :
    matchSpDigits (sp ++ (d ++ rest)) = some (d, rest) := by
  have hdhead : ∀ c, (d ++ rest).head? = some c → pyIsSpace c = false := by
    cases d with
    | nil => exact absurd rfl hd
    | cons b d' =>
      intro c hc
      simp only [List.cons_append, List.head?_cons, Option.some.injEq] at hc
      subst hc
      exact digit_not_space (hds b (by simp))
  have hr : (sp ++ (d ++ rest)).dropWhile pyIsSpace = d ++ rest := by
    rw [dropWhile_append_of_all hsps, dropWhile_of_head_not hdhead]
  have htk : (d ++ rest).takeWhile Char.isDigit = d := by
    rw [takeWhile_append_of_all hds, takeWhile_of_head_not hrest, List.append_nil]
  have hdr : (d ++ rest).dropWhile Char.isDigit = rest := by
    rw [dropWhile_append_of_all hds, dropWhile_of_head_not hrest]
  cases sp with
  | nil => exact absurd rfl hsp
  | cons a sp' =>
    have ha : pyIsSpace a = true := hsps a (by simp)
    simp only [List.cons_append] at hr ⊢
    simp only [matchSpDigits, ha, if_true, hr, htk, hdr, if_neg hd]

theorem matchBbox4_spec {sp1 sp2 sp3 sp4 d1 d2 d3 d4 tail : Chars}
    (h1 : sp1 ≠ []) (h1s : ∀ c ∈ sp1, pyIsSpace c = true)
    (h2 : sp2 ≠ []) (h2s : ∀ c ∈ sp2, pyIsSpace c = true)
    (h3 : sp3 ≠ []) (h3s : ∀ c ∈ sp3, pyIsSpace c = true)
    (h4 : sp4 ≠ []) (h4s : ∀ c ∈ sp4, pyIsSpace c = true)
    (g1 : d1 ≠ []) (g1d : ∀ c ∈ d1, c.isDigit = true)
    (g2 : d2 ≠ []) (g2d : ∀ c ∈ d2, c.isDigit = true)
    (g3 : d3 ≠ []) (g3d : ∀ c ∈ d3, c.isDigit = true)
    (g4 : d4 ≠ []) (g4d : ∀ c ∈ d4, c.isDigit = true)
    (htail : ∀ c, tail.head? = some c → c.isDigit = false) :
    matchBbox4 (sp1 ++ (d1 ++ (sp2 ++ (d2 ++ (sp3 ++ (d3 ++ (sp4 ++ (d4 ++ tail))))))))
      = some ((natOfDigits d1 : ℤ), (natOfDigits d2 : ℤ),
              (natOfDigits d3 : ℤ), (natOfDigits d4 : ℤ)) := by
  have m1 := matchSpDigits_spec h1 h1s g1 g1d
    (@head_not_digit_of_space sp2 (d2 ++ (sp3 ++ (d3 ++ (sp4 ++ (d4 ++ tail))))) h2 h2s)
  have m2 := matchSpDigits_spec h2 h2s g2 g2d
    (@head_not_digit_of_space sp3 (d3 ++ (sp4 ++ (d4 ++ tail))) h3 h3s)
  have m3 := matchSpDigits_spec h3 h3s g3 g3d
    (@head_not_digit_of_space sp4 (d4 ++ tail) h4 h4s)
  have m4 := matchSpDigits_spec h4 h4s g4 g4d htail
  simp only [matchBbox4, bind, Option.bind, m1, m2, m3, m4]
  rfl

theorem boxSearch_at_head {rest : Chars} {r : ℤ × ℤ × ℤ × ℤ}
    (h : matchBbox4 rest = some r) :
    boxSearch (bboxHead ++ rest) = some r := by
  show boxSearch ('b' :: ('b' :: 'o' :: 'x' :: rest)) = some r
  simp [boxSearch, bboxHead, h]

theorem fileSearch_at_head {sp path : Chars}
    (hsp : sp ≠ []) (hsps : ∀ c ∈ sp, pyIsSpace c = true)
    (hhead : ∀ c, path.head? = some c → pyIsSpace c = false)
    (hnl : '\n' ∉ path) :
    fileSearch (fileHead ++ (sp ++ path)) = some path := by
  have htake : path.takeWhile (fun d => !decide (d = '\n')) = path :=
    takeWhile_of_all (fun c hc => by
      have hcn : c ≠ '\n' := fun hcc => hnl (hcc ▸ hc)
      simp [hcn])
  cases sp with
  | nil => exact absurd rfl hsp
  | cons a sp' =>
    have ha : pyIsSpace a = true := hsps a (by simp)
    have hdrop' : (sp' ++ path).dropWhile pyIsSpace = path := by
      rw [dropWhile_append_of_all (fun c hc => hsps c (by simp [hc])),
          dropWhile_of_head_not hhead]
    simp only [List.cons_append] at hdrop' ⊢
    simp [fileSearch, fileMatchAt, fileHead, ha, hdrop', htake]

/-! ## Claim theorems -/

/-- C1: with an image carrying embedded DPI 150×150 and pixel size 1500×2250
and a page bounding box `(0,0,1500,2250)`, `_setup_image` derives a physical
size of exactly 10×15 length units, geometry resolution yields effective DPI
exactly (150, 150), and the full page loop emits one page with exactly that
geometry and a 720×1080-point page size. -/
theorem c1_dpi_cascade :
    setup_image c1Img = .ok (c1Img, some (10, 15))
    ∧ resolve_dims true 1500 2250 (some (10, 15)) (some c1Img)
        = .ok ((10, 15), some (150, 150))
    ∧ to_pdf 2 (some [c1Page]) [c1Img] [] cfg0
        = .ok [⟨false, some (10, 15, some (150, 150)), some (720, 1080),
               some c1Img, []⟩] := by
  refine ⟨?_, ?_, ?_⟩ <;> with_unfolding_all rfl

/-- C2 counterexample: a node whose `title` matches neither pattern does not
continue with an absent bounding box — `element_coordinates` calls
`has_key` on the `None` returned by `parse_element_title` and raises
`AttributeError`, so processing fails rather than continuing. -/
theorem c2_counterexample :
    element_coordinates (some "ppageno 0".data) = .error .attributeError := rfl

/-- C2 amended: a missing `title`, or a `title` matching neither pattern,
makes `parse_element_title` return `None` and `element_coordinates` then
raises `AttributeError` (processing does not continue); a `title` matching
only the file pattern yields the zero-box sentinel `(0,0,0,0)` rather than
an explicitly absent bounding box. -/
theorem c2_amended :
    element_coordinates none = .error .attributeError
    ∧ (∀ t : Chars, parse_element_title (some t) = none →
        element_coordinates (some t) = .error .attributeError)
    ∧ (∀ t f : Chars, parse_element_title (some t) = some (.file f) →
        element_coordinates (some t) = .ok (0, 0, 0, 0)) := by
  refine ⟨rfl, ?_, ?_⟩
  · intro t h
    unfold element_coordinates
    rw [h]
  · intro t f h
    unfold element_coordinates
    rw [h]

/-- Witness for C2: the amended claim applied to the concrete titles
`"x_wconf 91"` (matches neither pattern) and `"file a.png"`. -/
theorem c2_amended_witness :
    element_coordinates (some "x_wconf 91".data) = .error .attributeError
    ∧ element_coordinates (some "file a.png".data) = .ok (0, 0, 0, 0) :=
  ⟨c2_amended.2.1 _ rfl, c2_amended.2.2 _ "a.png".data rfl⟩

/-- C4 (code bug): a page referencing `file im.png` with no command-line
image and hOCR images not suppressed should use the referenced image as the
page background, but line 282 (`heigth = heigth_ocr`) references the
undefined name `heigth_ocr` (a misspelling of `height_ocr`), so the run
raises `NameError` instead. -/
theorem c4_heigth_typo_namerror :
    to_pdf 2 (some [fpage]) [] fsC4 cfg0 = .error .nameError := rfl

/-- C5: in geometry resolution (lines 307-326), when the image carries no
embedded resolution (`_setup_image` returns `None` dimensions) and the
300-DPI path over the OCR extent is unavailable (that branch requires an
hOCR page), the physical size is computed from the raw pixel size at 96 DPI. -/
theorem c5_dpi96_fallback :
    ∀ (w h : ℕ) (ow oh : ℤ),
      setup_image ⟨w, h, none⟩ = .ok (⟨w, h, none⟩, none)
      ∧ resolve_dims false ow oh none (some ⟨w, h, none⟩)
          = .ok (((w : ℚ) / 96, (h : ℚ) / 96), none) :=
  fun _ _ _ _ => ⟨rfl, rfl⟩

/-- C10: the plain-text export is `_get_element_text` of the body when the
body has children, and the empty string when no document is loaded, no body
is found, or the body is childless — even a childless body with direct text
(Python truthiness of an element counts its children). -/
theorem c10_to_text :
    to_text none = []
    ∧ to_text (some none) = []
    ∧ (∀ t tl : Option Chars, to_text (some (some (.node t [] tl))) = [])
    ∧ (∀ (t tl : Option Chars) (c : XElem) (cs : List XElem),
        to_text (some (some (.node t (c :: cs) tl)))
          = get_element_text (.node t (c :: cs) tl)) :=
  ⟨rfl, rfl, fun _ _ => rfl, fun _ _ _ _ => rfl⟩

theorem except_bind_error {α β : Type} (e : PyErr) (f : α → Except PyErr β) :
    ((Except.error e : Except PyErr α) >>= f) = .error e := rfl

theorem except_pure {α : Type} (a : α) :
    (pure a : Except PyErr α) = .ok a := rfl

/-- If multi-page mode is off, every iteration past the first breaks at once
(line 219-222). -/
theorem to_pdf_iter_stop (hocr : Option (List DivEl)) (imgs : List Img)
    (fs : List (Chars × Img)) (cfg : Cfg) (pages : List DivEl) (pc : ℕ)
    (hm : cfg.multiplePages = false) (hpc : 1 < pc) :
    to_pdf_iter hocr imgs fs cfg pages pc = .ok none := by
  simp only [to_pdf_iter]
  rw [if_pos ⟨hpc, hm⟩]

/-- C8: with vertical inversion enabled, the emitted text origin's
y-coordinate is `(H - y1/dpi_y)` and the inverted box top is
`(H - y0/dpi_y)` (both scaled by the fixed 72-points-per-inch constant the
code applies throughout), and the inversion transform is an involution —
applying it twice restores the original y-coordinates exactly (hence within
any floating tolerance). -/
theorem c8_vertical_inversion :
    (∀ (x0 y0 x1 y1 : ℤ) (dx dy hgt : ℚ), dx ≠ 0 → dy ≠ 0 →
      text_corners (x0, y0, x1, y1) (dx, dy) hgt true
        = .ok ((x0 : ℚ) / dx * inch, (hgt - (y1 : ℚ) / dy) * inch,
               (x1 : ℚ) / dx * inch, (hgt - (y0 : ℚ) / dy) * inch))
    ∧ (∀ (hgt : ℚ) (p : ℚ × ℚ), invert_y (hgt * inch) (invert_y (hgt * inch) p) = p) := by
  constructor
  · intro x0 y0 x1 y1 dx dy hgt hdx hdy
    have h1 : pydiv (x0 : ℚ) dx = .ok ((x0 : ℚ) / dx) := by rw [pydiv, if_neg hdx]
    have h2 : pydiv (y0 : ℚ) dy = .ok ((y0 : ℚ) / dy) := by rw [pydiv, if_neg hdy]
    have h3 : pydiv (x1 : ℚ) dx = .ok ((x1 : ℚ) / dx) := by rw [pydiv, if_neg hdx]
    have h4 : pydiv (y1 : ℚ) dy = .ok ((y1 : ℚ) / dy) := by rw [pydiv, if_neg hdy]
    simp only [text_corners]
    simp [h1, h2, h3, h4, invert_y, except_bind_ok]
    refine ⟨?_, ?_⟩ <;> ring
  · intro hgt p
    cases p with
    | mk a b => simp [invert_y]

/-- Witness for C8: the spec's box `(10,20,110,70)` at DPI `(2,2)` on a page
of physical height 100, plus a concrete double inversion. -/
theorem c8_vertical_inversion_witness :
    text_corners (10, 20, 110, 70) (2, 2) 100 true = .ok (360, 4680, 3960, 6480)
    ∧ invert_y (100 * inch) (invert_y (100 * inch) (720, 2520)) = (720, 2520) := by
  constructor
  · have h := c8_vertical_inversion.1 10 20 110 70 2 2 100 (by norm_num) (by norm_num)
    rw [h]
    norm_num [inch]
  · exact c8_vertical_inversion.2 100 (720, 2520)

/-- C6 counterexample: not every division is guarded.  A page whose bbox and
text extent are zero but which gets a visible command-line image resolves to
effective DPI `(0, 0)`, and placing its one `ocr_par` node then divides by
zero: the conversion raises `ZeroDivisionError`. -/
theorem c6_counterexample :
    to_pdf 2 (some [c6page]) [img100] [] cfg0 = .error .zeroDivision := by
  with_unfolding_all rfl

/-- C6 amended: only the skip check guards geometry resolution.  When the
resolved physical size is nonzero the effective DPI is the plain quotient
(positive whenever extent and size are positive), but a zero physical
dimension raises `ZeroDivisionError` directly, and a zero OCR extent with a
nonzero size yields DPI 0, which later divides by zero during text
placement (see the counterexample). -/
theorem c6_amended :
    (∀ (ow oh : ℤ) (w h : ℚ) (im : Option Img), w ≠ 0 → h ≠ 0 →
       resolve_dims true ow oh (some (w, h)) im
         = .ok ((w, h), some ((ow : ℚ) / w, (oh : ℚ) / h)))
    ∧ (∀ (ow oh : ℤ) (w h : ℚ), 0 < ow → 0 < oh → 0 < w → 0 < h →
       (0 : ℚ) < (ow : ℚ) / w ∧ (0 : ℚ) < (oh : ℚ) / h)
    ∧ (∀ (ow oh : ℤ) (h : ℚ) (im : Option Img),
       resolve_dims true ow oh (some (0, h)) im = .error .zeroDivision) := by
  refine ⟨?_, ?_, ?_⟩
  · intro ow oh w h im hw hh
    have h1 : pydiv (ow : ℚ) w = .ok ((ow : ℚ) / w) := by rw [pydiv, if_neg hw]
    have h2 : pydiv (oh : ℚ) h = .ok ((oh : ℚ) / h) := by rw [pydiv, if_neg hh]
    simp only [resolve_dims, if_true, h1, h2, except_bind_ok]
    rfl
  · intro ow oh w h how hoh hw hh
    exact ⟨div_pos (by exact_mod_cast how) hw, div_pos (by exact_mod_cast hoh) hh⟩
  · intro ow oh h im
    simp [resolve_dims, pydiv, except_bind_error]

/-- Witness for C6: the amended claim at the DPI-cascade numbers and at a
zero physical width. -/
theorem c6_amended_witness :
    resolve_dims true 1500 2250 (some (10, 15)) none = .ok ((10, 15), some (150, 150))
    ∧ (0 : ℚ) < ((1500 : ℤ) : ℚ) / 10
    ∧ resolve_dims true 5 5 (some (0, 1)) none = .error .zeroDivision := by
  refine ⟨?_, ?_, c6_amended.2.2 5 5 1 none⟩
  · have h := c6_amended.1 1500 2250 10 15 none (by norm_num) (by norm_num)
    rw [h]
    norm_num
  · exact (c6_amended.2.1 1500 2250 10 15 (by norm_num) (by norm_num)
      (by norm_num) (by norm_num)).1

/-- C3 counterexample: a document whose single page has zero extent.  The
skip branch is taken, yet line 413 still calls `pdf.showPage()`, so the
output does contain a (blank) page for the skipped hOCR page — the claim's
"without emitting any output page" is false. -/
theorem c3_counterexample :
    to_pdf 2 (some [zpage]) [] [] cfg0 = .ok [blankPage] := by
  with_unfolding_all rfl

/-- C3 amended: a page that resolves to zero usable extent contributes no
content (no page size, no image, no text) but is still finalized as a blank
output page by the unconditional `showPage()`; processing then continues
with the remaining pages in order (shown concretely for a zero-extent page
followed by a normal page). -/
theorem c3_amended :
    (∀ (p : DivEl) (hocr : Option (List DivEl)) (fs : List (Chars × Img))
       (cfg : Cfg) (pages : List DivEl) (pc : ℕ),
       parse_element_title p.title = some (.bbox (0, 0, 0, 0)) →
       p.spans = [] →
       pages.get? (pc - 1) = some p →
       (1 < pc → cfg.multiplePages = true) →
       to_pdf_iter hocr [] fs cfg pages pc = .ok (some blankPage))
    ∧ to_pdf 3 (some [zpage, rpage]) [img100] [] cfgMnoImg
        = .ok [blankPage, ⟨false, some (1, 1, some (100, 100)), some (72, 72), none, []⟩] := by
  constructor
  · intro p hocr fs cfg pages pc hparse hspans hget hmp
    have hcond : ¬(1 < pc ∧ cfg.multiplePages = false) := by
      rintro ⟨h1, h2⟩
      rw [hmp h1] at h2
      exact Bool.noConfusion h2
    have hec : element_coordinates p.title = .ok (0, 0, 0, 0) := by
      unfold element_coordinates
      rw [hparse]
    have hext : get_ocr_text_extension p = .ok (0, 0, 0, 0) := by
      unfold get_ocr_text_extension
      rw [hspans]
      rfl
    simp only [to_pdf_iter]
    rw [hget, if_neg hcond]
    simp [hec, hparse, hext, pyFalsy, except_bind_ok, except_pure]
  · with_unfolding_all rfl

/-- Witness for C3: the general skip lemma applied to the concrete
zero-extent page. -/
theorem c3_amended_witness :
    to_pdf_iter (some [zpage]) [] [] cfg0 [zpage] 1 = .ok (some blankPage) :=
  c3_amended.1 zpage (some [zpage]) [] cfg0 [zpage] 1 rfl rfl rfl
    (fun h => absurd h (by norm_num))

/-- C7 counterexample: one hOCR page, two command-line images, multi-page
mode on.  Instead of stopping once no further hOCR page exists, the loop
proceeds into a page-less iteration for the leftover image and raises
`AttributeError` (`page.findall` on `None`), aborting the conversion with no
output at all. -/
theorem c7_counterexample :
    to_pdf 3 (some [rpage]) [img100, img100] [] cfgM = .error .attributeError := by
  with_unfolding_all rfl

/-- C7 amended: with multi-page disabled, at most one page is ever emitted
(the loop breaks at the top of iteration 2).  With multi-page enabled,
processing stops only when the page list is exhausted AND the image list
would have to be repeated (fewer images than the page index); in that case
leftover hOCR-less iterations emit nothing further (shown concretely: 1 page
and 1 image yield exactly 1 output page).  When distinct images remain past
the last page, the run instead crashes (see the counterexample). -/
theorem c7_amended :
    (∀ (fuel : ℕ) (hocr : Option (List DivEl)) (imgs : List Img)
       (fs : List (Chars × Img)) (cfg : Cfg) (evs : List PageEvent),
       cfg.multiplePages = false →
       to_pdf fuel hocr imgs fs cfg = .ok evs → evs.length ≤ 1)
    ∧ to_pdf 3 (some [rpage]) [img100] [] cfgM
        = .ok [⟨false, some (1, 1, some (100, 100)), some (72, 72), some img100, []⟩] := by
  constructor
  · intro fuel hocr imgs fs cfg evs hm hok
    simp only [to_pdf] at hok
    cases fuel with
    | zero => simp [to_pdf_loop] at hok
    | succ f =>
      simp only [to_pdf_loop] at hok
      cases hiter : to_pdf_iter hocr imgs fs cfg
          ((hocr.getD []).filter fun d => decide (d.cls = ocrPageCls)) 1 with
      | error e =>
        rw [hiter] at hok
        simp at hok
      | ok o =>
        rw [hiter] at hok
        cases o with
        | none =>
          simp at hok
          subst hok
          simp
        | some ev =>
          cases f with
          | zero => simp [to_pdf_loop] at hok
          | succ g =>
            simp only [to_pdf_loop] at hok
            rw [to_pdf_iter_stop _ _ _ _ _ _ hm (by norm_num)] at hok
            simp at hok
            subst hok
            simp
  · with_unfolding_all rfl

/-- Witness for C7: the at-most-one-page statement applied to a concrete
single-page run with multi-page disabled. -/
theorem c7_amended_witness :
    ([(⟨false, some (1, 1, some (100, 100)), some (72, 72), some img100, []⟩ : PageEvent)]).length ≤ 1 :=
  c7_amended.1 2 (some [rpage]) [img100] [] cfg0 _ rfl (by with_unfolding_all rfl)

/-- C9: behaviour of `parse_element_title`.
1. Any title of the shape `bbox` `\s+ d1 \s+ d2 \s+ d3 \s+ d4` (arbitrary
   whitespace runs, arbitrary digit runs, an arbitrary trailer that does not
   extend the last digit run) parses to exactly those four integers,
   verbatim.
2. The concrete hOCR title `"bbox 36 92 618 269"` parses to `(36,92,618,269)`.
3. A title `file` `\s+ path` with no bbox match returns exactly
   `{file: path}` (with `(.*)` capturing up to a newline, hence the
   newline-free hypothesis).
4. A title matching neither pattern yields `None`.
5. Whenever the bbox pattern matches at all, its result wins — so at most
   one result is ever produced. -/
theorem c9_title_tokens :
    (∀ sp1 sp2 sp3 sp4 d1 d2 d3 d4 tail : Chars,
       sp1 ≠ [] → (∀ c ∈ sp1, pyIsSpace c = true) →
       sp2 ≠ [] → (∀ c ∈ sp2, pyIsSpace c = true) →
       sp3 ≠ [] → (∀ c ∈ sp3, pyIsSpace c = true) →
       sp4 ≠ [] → (∀ c ∈ sp4, pyIsSpace c = true) →
       d1 ≠ [] → (∀ c ∈ d1, c.isDigit = true) →
       d2 ≠ [] → (∀ c ∈ d2, c.isDigit = true) →
       d3 ≠ [] → (∀ c ∈ d3, c.isDigit = true) →
       d4 ≠ [] → (∀ c ∈ d4, c.isDigit = true) →
       (∀ c, tail.head? = some c → c.isDigit = false) →
       parse_element_title (some (bboxHead ++ (sp1 ++ (d1 ++ (sp2 ++ (d2 ++
           (sp3 ++ (d3 ++ (sp4 ++ (d4 ++ tail))))))))))
         = some (.bbox ((natOfDigits d1 : ℤ), (natOfDigits d2 : ℤ),
                        (natOfDigits d3 : ℤ), (natOfDigits d4 : ℤ))))
    ∧ parse_element_title (some "bbox 36 92 618 269".data)
        = some (.bbox (36, 92, 618, 269))
    ∧ (∀ sp path : Chars, sp ≠ [] → (∀ c ∈ sp, pyIsSpace c = true) →
       boxSearch (fileHead ++ (sp ++ path)) = none →
       (∀ c, path.head? = some c → pyIsSpace c = false) →
       '\n' ∉ path →
       parse_element_title (some (fileHead ++ (sp ++ path))) = some (.file path))
    ∧ (∀ t : Chars, boxSearch t = none → fileSearch t = none →
       parse_element_title (some t) = none)
    ∧ (∀ (t : Chars) (r : ℤ × ℤ × ℤ × ℤ), boxSearch t = some r →
       parse_element_title (some t) = some (.bbox r)) := by
  refine ⟨?_, by with_unfolding_all rfl, ?_, ?_, ?_⟩
  · intro sp1 sp2 sp3 sp4 d1 d2 d3 d4 tail hs1 hs1s hs2 hs2s hs3 hs3s hs4 hs4s
      hg1 hg1d hg2 hg2d hg3 hg3d hg4 hg4d htail
    have hm := matchBbox4_spec hs1 hs1s hs2 hs2s hs3 hs3s hs4 hs4s
      hg1 hg1d hg2 hg2d hg3 hg3d hg4 hg4d htail
    have hb := boxSearch_at_head hm
    simp only [parse_element_title, hb]
  · intro sp path hsp hsps hbox hhead hnl
    simp only [parse_element_title, hbox, fileSearch_at_head hsp hsps hhead hnl,
      Option.map_some']
  · intro t hbox hfile
    simp only [parse_element_title, hbox, hfile, Option.map_none']
  · intro t r hbox
    simp only [parse_element_title, hbox]

/-- Witness for C9: the bbox clause at `"bbox 1 2 3 4"` and the file clause
at `"file a.png"`. -/
theorem c9_title_tokens_witness :
    parse_element_title (some (bboxHead ++ ([' '] ++ (['1'] ++ ([' '] ++ (['2'] ++
        ([' '] ++ (['3'] ++ ([' '] ++ (['4'] ++ ([] : Chars)))))))))))
      = some (.bbox (1, 2, 3, 4))
    ∧ parse_element_title (some (fileHead ++ ([' '] ++ "a.png".data)))
      = some (.file "a.png".data) := by
  constructor
  · exact c9_title_tokens.1 [' '] [' '] [' '] [' '] ['1'] ['2'] ['3'] ['4'] []
      (by decide) (by decide) (by decide) (by decide) (by decide) (by decide)
      (by decide) (by decide) (by decide) (by decide) (by decide) (by decide)
      (by decide) (by decide) (by decide) (by decide)
      (fun c hc => absurd hc (by simp))
  · exact c9_title_tokens.2.2.1 [' '] "a.png".data (by decide) (by decide)
      (by decide) (by decide) (by decide)

end HocrConverter
